import Mathlib

/-!
Shallow embedding of the control-plane logic of ds6-device.cpp
(librealsense DS6 device driver): capability parsing from the GVD blob,
firmware-version gated option registration, intrinsics lookup dispatch,
extrinsics registration, depth-sensor open behaviour and device-time read.
-/

set_option autoImplicit false

namespace Ds6

/-- Firmware version as an ordered 4-tuple (major, minor, patch, build).
Modelled from the spec: comparison is lexicographic tuple comparison,
independent of the experimental flag (the firmware_version helper class is
declared outside this source file). -/
structure FirmwareVersion where
  major : Nat
  minor : Nat
  patch : Nat
  build : Nat
deriving DecidableEq, Repr

/-- Abbreviation for firmware version literals such as v 5 12 8 100. -/
def v (a b c d : Nat) : FirmwareVersion := ⟨a, b, c, d⟩

/-- Modelled from the spec: lexicographic greater-or-equal on firmware
version tuples (the only comparison used by the gating code). -/
def fwGe (x y : FirmwareVersion) : Bool :=
  if x.major = y.major then
    if x.minor = y.minor then
      if x.patch = y.patch then decide (y.build ≤ x.build)
      else decide (y.patch < x.patch)
    else decide (y.minor < x.minor)
  else decide (y.major < x.major)

/-- The d400_caps capability bit-flag set, represented as one boolean per
named capability flag used by ds6-device.cpp. -/
structure D400Caps where
  activeProjector : Bool
  rgbSensor : Bool
  imuSensor : Bool
  bmi055 : Bool
  bmi085 : Bool
  fisheyeSensor : Bool
  rollingShutter : Bool
  globalShutter : Bool
  intercamHwSync : Bool
deriving DecidableEq, Repr

/-- d400_caps::CAP_UNDEFINED: the empty capability set, the value the
device capability member is constructed with. -/
def capUndefined : D400Caps :=
  ⟨false, false, false, false, false, false, false, false, false⟩

/-- The GVD bytes read at the fixed offsets named in
parse_device_capabilities (each field is the byte gvd_buf at that offset). -/
structure GvdBytes where
  active_projector : Nat
  rgb_sensor : Nat
  imu_sensor : Nat
  imu_acc_chip_id : Nat
  fisheye_sensor_lb : Nat
  fisheye_sensor_hb : Nat
  depth_sensor_type : Nat
deriving DecidableEq, Repr

/-- Externally supplied configuration constants (IMU chip-id signatures,
product-id fallback tables, product ids) declared in headers outside this
source file; the spec treats these numeric values as configuration data. -/
structure DsConfig where
  i2c_imu_bmi055_id_acc : Nat
  i2c_imu_bmi085_id_acc : Nat
  hid_bmi_055_pid : List Nat
  hid_bmi_085_pid : List Nat
  rs405_pid : Nat
  rs416_pid : Nat
  rs416_rgb_pid : Nat
deriving DecidableEq, Repr

/-- First two updates of parse_device_capabilities: DepthActiveMode and
WithRGB flags from their GVD bytes, starting from CAP_UNDEFINED. -/
def projector_rgb_step (gvd : GvdBytes) : D400Caps :=
  let val := capUndefined
  let val := if gvd.active_projector ≠ 0 then { val with activeProjector := true } else val
  if gvd.rgb_sensor ≠ 0 then { val with rgbSensor := true } else val

/-- The IMU block of parse_device_capabilities: sets CAP_IMU_SENSOR when
the IMU-present byte is nonzero, then identifies the chip by the chip-id
byte or the product-id fallback tables; when nothing matches, only the
non-fatal diagnostic flag (the LOG_WARNING) is raised. -/
def imu_capability_step (cfg : DsConfig) (pid : Nat) (gvd : GvdBytes)
    (val : D400Caps) : D400Caps × Bool :=
  if gvd.imu_sensor ≠ 0 then
    let val := { val with imuSensor := true }
    if gvd.imu_acc_chip_id = cfg.i2c_imu_bmi055_id_acc then
      ({ val with bmi055 := true }, false)
    else if gvd.imu_acc_chip_id = cfg.i2c_imu_bmi085_id_acc then
      ({ val with bmi085 := true }, false)
    else if pid ∈ cfg.hid_bmi_055_pid then
      ({ val with bmi055 := true }, false)
    else if pid ∈ cfg.hid_bmi_085_pid then
      ({ val with bmi085 := true }, false)
    else
      (val, true)
  else (val, false)

/-- Trailing updates of parse_device_capabilities: fisheye sentinel
check, shutter-kind discriminant, and the intercam hw sync product-id
exclusion. -/
def sensor_capability_step (cfg : DsConfig) (pid : Nat) (gvd : GvdBytes)
    (val : D400Caps) : D400Caps :=
  let val := if 0xFF ≠ (gvd.fisheye_sensor_lb &&& gvd.fisheye_sensor_hb) then { val with fisheyeSensor := true } else val
  let val := if gvd.depth_sensor_type = 1 then { val with rollingShutter := true } else val
  let val := if gvd.depth_sensor_type = 2 then { val with globalShutter := true } else val
  if pid ≠ cfg.rs405_pid then { val with intercamHwSync := true } else val

/-- ds6_device::parse_device_capabilities, as a function of the GVD bytes
and the device product id: the three update blocks above in program
order. Returns the capability mask together with a flag recording whether
the non-fatal unknown-IMU diagnostic (LOG_WARNING) was emitted. -/
def parse_device_capabilities (cfg : DsConfig) (pid : Nat) (gvd : GvdBytes) :
    D400Caps × Bool :=
  let step := imu_capability_step cfg pid gvd (projector_rgb_step gvd)
  (sensor_capability_step cfg pid gvd step.1, step.2)

/-- The rs2 option identifiers registered on the depth sensor by
ds6_device::init and create_depth_device. -/
inductive Rs2Option where
  | globalTimeEnabled
  | hardwarePreset
  | ledPower
  | outputTriggerEnabled
  | errorPollingEnabled
  | asicTemperature
  | enableAutoExposure
  | sequenceName
  | sequenceSize
  | sequenceId
  | hdrEnabled
  | exposure
  | gain
  | emitterAlwaysOn
  | emitterOnOff
  | interCamSyncMode
  | stereoBaseline
  | depthUnits
deriving DecidableEq, Repr

/-- The option objects a gated_option registration names as blockers. -/
inductive Blocker where
  | hdrEnabledOpt
  | emitterAlwaysOnOpt
  | alternatingEmitterOpt
deriving DecidableEq, Repr

/-- Description of the option object registered for an option id: the
composition structure built by ds6_device::init (raw uvc controls, hdr
options routed through the coordinator, and the gated / auto-disabling /
conditional wrappers stacked over them). -/
inductive OptDesc where
  | uvcXu (ctrl : String)
  | uvcPu (opt : String)
  | hdrOpt (opt : String)
  | hdrConditional (manualSide hdrSide : OptDesc)
  | autoDisabling (target autoEnable : OptDesc)
  | gated (target : OptDesc) (blockers : List (Blocker × String))
  | alternatingEmitter (is_fw_version_using_id : Bool)
  | emitterAlwaysOnCtl
  | emitterOnAndOffCtl
  | externalSyncMode (modeCount : Nat)
  | pollingErrorsDisable
  | asicTemperatureCtl
  | constValueOpt (desc : String)
  | depthScaleOpt
  | globalTimeOpt
deriving DecidableEq, Repr

/-- The option registry: registrations in program order; a later
registration of the same id replaces an earlier one on lookup. -/
abbrev Registry := List (Rs2Option × OptDesc)

/-- Last-registration-wins lookup in the option registry. -/
def lookupOpt : Registry → Rs2Option → Option OptDesc
  | [], _ => none
  | p :: rest, i =>
    match lookupOpt rest i with
    | some d => some d
    | none => if p.1 = i then some p.2 else none

/-- Number of registrations recorded for an option id. -/
def countOpt (r : Registry) (i : Rs2Option) : Nat :=
  (r.filter (fun p => p.1 = i)).length

/-- Minimal firmware version in which the hdr feature is supported
("5.12.8.100" in ds6_device::init). -/
def hdr_firmware_version : FirmwareVersion := v 5 12 8 100

/-- The raw depth exposure control (uvc_xu_option over DS5_EXPOSURE). -/
def uvc_xu_exposure_option : OptDesc := .uvcXu "DS5_EXPOSURE"

/-- The raw gain control (uvc_pu_option over RS2_OPTION_GAIN). -/
def uvc_pu_gain_option : OptDesc := .uvcPu "RS2_OPTION_GAIN"

/-- The raw auto-exposure enable control (uvc_xu_option over
DS5_ENABLE_AUTO_EXPOSURE). -/
def enable_auto_exposure : OptDesc := .uvcXu "DS5_ENABLE_AUTO_EXPOSURE"

/-- Option registered by create_depth_device before init runs. -/
def baseOptions : Registry := [(.globalTimeEnabled, .globalTimeOpt)]

/-- Hardware-preset and LED-power registrations for the RS416 skus. -/
def rs416Options (cfg : DsConfig) (pid : Nat) (fw : FirmwareVersion) : Registry :=
  if (pid = cfg.rs416_pid ∨ pid = cfg.rs416_rgb_pid) ∧ fwGe fw (v 5 12 0 1) = true then
    [(.hardwarePreset, .uvcXu "DS5_HARDWARE_PRESET"),
     (.ledPower, .uvcXu "DS5_LED_PWR")]
  else []

/-- Registrations guarded by firmware version 5.5.8.0 (external trigger,
error polling, asic temperature). -/
def fw558Options (fw : FirmwareVersion) : Registry :=
  if fwGe fw (v 5 5 8 0) = true then
    [(.outputTriggerEnabled, .uvcXu "DS5_EXT_TRIGGER"),
     (.errorPollingEnabled, .pollingErrorsDisable),
     (.asicTemperature, .asicTemperatureCtl)]
  else []

/-- The HDR-branch registrations of ds6_device::init. The source guards
this branch on the firmware version only: the global-shutter capability
conjunct is present only as commented-out code. -/
def hdrOptions (fw : FirmwareVersion) : Registry :=
  if fwGe fw hdr_firmware_version = true then
    [(.sequenceName, .hdrOpt "RS2_OPTION_SEQUENCE_NAME"),
     (.sequenceSize, .hdrOpt "RS2_OPTION_SEQUENCE_SIZE"),
     (.sequenceId, .hdrOpt "RS2_OPTION_SEQUENCE_ID"),
     (.hdrEnabled, .hdrOpt "RS2_OPTION_HDR_ENABLED"),
     (.enableAutoExposure,
       .gated enable_auto_exposure
         [(.hdrEnabledOpt, "Auto Exposure cannot be set while HDR is enabled")])]
  else []

/-- The local exposure_option variable of init: the hdr conditional hybrid
when the firmware supports hdr, the raw xu control otherwise. -/
def exposure_option (fw : FirmwareVersion) : OptDesc :=
  if fwGe fw hdr_firmware_version = true then
    .hdrConditional uvc_xu_exposure_option (.hdrOpt "RS2_OPTION_EXPOSURE")
  else uvc_xu_exposure_option

/-- The local gain_option variable of init. -/
def gain_option (fw : FirmwareVersion) : OptDesc :=
  if fwGe fw hdr_firmware_version = true then
    .hdrConditional uvc_pu_gain_option (.hdrOpt "RS2_OPTION_GAIN")
  else uvc_pu_gain_option

/-- The unconditional exposure and gain registrations: auto-disabling
wrappers over the selected option with the auto-exposure enable flag. -/
def exposureGainOptions (fw : FirmwareVersion) : Registry :=
  [(.exposure, .autoDisabling (exposure_option fw) enable_auto_exposure),
   (.gain, .autoDisabling (gain_option fw) enable_auto_exposure)]

/-- The emitter on/off and emitter always-on registrations: the tiered
alternating-laser-pattern block of init. -/
def emitterOptions (fw : FirmwareVersion) (experimental : Bool) (caps : D400Caps) : Registry :=
  if fwGe fw (v 5 11 3 0) = true ∧ caps.globalShutter = true ∧ caps.activeProjector = true then
    let is_fw_version_using_id := fwGe fw hdr_firmware_version
    (if fwGe fw (v 5 12 1 0) = true ∧ caps.globalShutter = true then
       [(.emitterAlwaysOn,
         .gated .emitterAlwaysOnCtl
           [(.alternatingEmitterOpt, "Emitter always ON cannot be set while Emitter ON/OFF is enabled")])]
     else []) ++
    (if fwGe fw hdr_firmware_version = true then
       [(.emitterOnOff,
         .gated (.alternatingEmitter is_fw_version_using_id)
           [(.hdrEnabledOpt, "Emitter ON/OFF cannot be set while HDR is enabled"),
            (.emitterAlwaysOnOpt, "Emitter ON/OFF cannot be set while Emitter always ON is enabled")])]
     else if fwGe fw (v 5 12 1 0) = true ∧ caps.globalShutter = true then
       [(.emitterOnOff,
         .gated (.alternatingEmitter is_fw_version_using_id)
           [(.emitterAlwaysOnOpt, "Emitter ON/OFF cannot be set while Emitter always ON is enabled")])]
     else
       [(.emitterOnOff, .alternatingEmitter is_fw_version_using_id)])
  else if fwGe fw (v 5 10 9 0) = true ∧ caps.activeProjector = true ∧ experimental = true then
    [(.emitterOnOff, .emitterOnAndOffCtl)]
  else []

/-- The inter-camera sync mode registrations (tiered by firmware version
and global shutter, all under the intercam hw sync capability). -/
def syncOptions (fw : FirmwareVersion) (caps : D400Caps) : Registry :=
  if caps.intercamHwSync = true then
    if fwGe fw (v 5 12 12 100) = true ∧ caps.globalShutter = true then
      [(.interCamSyncMode, .externalSyncMode 3)]
    else if fwGe fw (v 5 12 4 0) = true ∧ caps.globalShutter = true then
      [(.interCamSyncMode, .externalSyncMode 2)]
    else if fwGe fw (v 5 9 15 1) = true then
      [(.interCamSyncMode, .externalSyncMode 1)]
    else []
  else []

/-- The stereo baseline const option registration. -/
def baselineOptions : Registry :=
  [(.stereoBaseline, .constValueOpt "Distance in mm between the stereo imagers")]

/-- The depth-units registration: a live depth-scale option in advanced
mode on new-enough firmware, a const option otherwise. -/
def depthUnitsOptions (fw : FirmwareVersion) (advanced_mode : Bool) : Registry :=
  if advanced_mode = true ∧ fwGe fw (v 5 6 3 0) = true then
    [(.depthUnits, .depthScaleOpt)]
  else
    [(.depthUnits, .constValueOpt "Number of meters represented by a single depth unit")]

/-- The depth-sensor option registrations of ds6_device::init (plus the
one made earlier by create_depth_device), in program order. -/
def register_options (cfg : DsConfig) (fw : FirmwareVersion)
    (experimental advanced_mode : Bool) (pid : Nat) (caps : D400Caps) : Registry :=
  baseOptions ++ rs416Options cfg pid fw ++ fw558Options fw ++
    [(.enableAutoExposure, enable_auto_exposure)] ++
    hdrOptions fw ++ exposureGainOptions fw ++
    emitterOptions fw experimental caps ++ syncOptions fw caps ++
    baselineOptions ++ depthUnitsOptions fw advanced_mode

/-- The device-capability member: constructed as CAP_UNDEFINED and
overwritten from parse_device_capabilities only when the firmware version
is at least 5.10.4.0. The boolean records whether the parse was invoked. -/
def ds6_device_capabilities (cfg : DsConfig) (fw : FirmwareVersion)
    (pid : Nat) (gvd : GvdBytes) : D400Caps × Bool :=
  if fwGe fw (v 5 10 4 0) = true then ((parse_device_capabilities cfg pid gvd).1, true)
  else (capUndefined, false)

/-- ds6_device::init seen as the option registry it produces, as a
function of firmware version, experimental flag, product id, advertised
GVD bytes and advanced-mode state. -/
def ds6_init (cfg : DsConfig) (fw : FirmwareVersion)
    (experimental advanced_mode : Bool) (pid : Nat) (gvd : GvdBytes) : Registry :=
  register_options cfg fw experimental advanced_mode pid
    (ds6_device_capabilities cfg fw pid gvd).1

/-- The exception kinds get_device_time_ms can raise. -/
inductive Ds6Error where
  | wrongApiCallSequence (msg : String)
  | runtimeError (msg : String)
deriving DecidableEq, Repr

/-- Modelled from the spec: the fixed tick-to-millisecond scale factor
(TIMESTAMP_USEC_TO_MSEC, declared outside this source file). -/
def TIMESTAMP_USEC_TO_MSEC : ℚ := 1 / 1000

/-- The 32-bit little-endian integer formed by the first four bytes of the
firmware response (the *(uint32_t*)res.data() read). -/
def uint32_at_start (res : List Nat) : Nat :=
  res.headD 0 + 256 * (res.drop 1).headD 0 + 65536 * (res.drop 2).headD 0 +
    16777216 * (res.drop 3).headD 0

/-- ds6_device::get_device_time_ms. The hardware-monitor state is modelled
as none when _hw_monitor is not initialized, and as some res when it is
initialized and its MRD clock-register read returns the bytes res. -/
def get_device_time_ms (hw_monitor : Option (List Nat)) : Except Ds6Error ℚ :=
  match hw_monitor with
  | none => .error (.wrongApiCallSequence "_hw_monitor is not initialized yet")
  | some res =>
    if res.length < 4 then
      .error (.runtimeError "Not enough bytes returned from the firmware!")
    else
      .ok ((uint32_at_start res : ℚ) * TIMESTAMP_USEC_TO_MSEC)

/-- A stream profile as supplied to the intrinsics lookup. -/
structure StreamProfileRec where
  width : Nat
  height : Nat
  format : Nat
  index : Nat
deriving DecidableEq, Repr

/-- ds6_depth_sensor::get_intrinsics: consult the newer unified
calibration table first; only when the resolution is absent there fall
back to the legacy coefficients table. The two table lookups are external
collaborators, passed as functions of the profile resolution. -/
def get_intrinsics {α : Type}
    (try_get_intrinsic_by_resolution_new : Nat → Nat → Option α)
    (get_intrinsic_by_resolution : Nat → Nat → α)
    (profile : StreamProfileRec) : α :=
  match try_get_intrinsic_by_resolution_new profile.width profile.height with
  | some result => result
  | none => get_intrinsic_by_resolution profile.width profile.height

/-- rs2_extrinsics with exact rational entries: rotation as a 9-entry
row-major list and translation as a 3-entry list. -/
structure Rs2Extrinsics where
  rotation : List ℚ
  translation : List ℚ
deriving DecidableEq, Repr

/-- identity_matrix(): identity rotation, zero translation. -/
def identity_matrix : Rs2Extrinsics :=
  ⟨[1, 0, 0, 0, 1, 0, 0, 0, 1], [0, 0, 0]⟩

/-- The lazily computed left-to-right extrinsics of ds6_device::init:
identity transform whose translation[0] is set to 0.001 times the
coefficients table baseline field (millimeters to meters). -/
def left_right_extrinsics (baseline : ℚ) : Rs2Extrinsics :=
  { identity_matrix with translation := [(1 / 1000 : ℚ) * baseline, 0, 0] }

/-- The streams between which init registers extrinsics. -/
inductive StreamTag where
  | depth
  | leftIr
  | rightIr
  | color
deriving DecidableEq, Repr

/-- An extrinsics-graph registration: register_same_extrinsics records the
identity transform, register_extrinsics records a lazily evaluated
transform whose eventual value is stored here. -/
inductive ExtrinsicsReg where
  | same (src dst : StreamTag)
  | lazyExt (src dst : StreamTag) (ext : Rs2Extrinsics)
deriving DecidableEq, Repr

/-- Source stream of a registration. -/
def ExtrinsicsReg.src : ExtrinsicsReg → StreamTag
  | .same s _ => s
  | .lazyExt s _ _ => s

/-- Destination stream of a registration. -/
def ExtrinsicsReg.dst : ExtrinsicsReg → StreamTag
  | .same _ d => d
  | .lazyExt _ d _ => d

/-- The transform a registration resolves to (identity for
register_same_extrinsics, the lazy value otherwise). -/
def ExtrinsicsReg.transform : ExtrinsicsReg → Rs2Extrinsics
  | .same _ _ => identity_matrix
  | .lazyExt _ _ e => e

/-- The extrinsics registrations made by ds6_device::init, in program
order, with the lazy left-right transform already evaluated at the
coefficients table baseline. -/
def ds6_extrinsics_registrations (baseline : ℚ) : List ExtrinsicsReg :=
  [ .same .depth .leftIr,
    .lazyExt .depth .rightIr (left_right_extrinsics baseline) ]

/-- The transform registered between two streams, if any. -/
def extrinsics_between (l : List ExtrinsicsReg) (a b : StreamTag) :
    Option Rs2Extrinsics :=
  (l.find? (fun r => r.src = a ∧ r.dst = b)).map ExtrinsicsReg.transform

/-- The observable steps ds6_depth_sensor::open performs. -/
inductive SensorAction where
  | queryDepthUnits
  | setMetadataModifier
  | syntheticOpen
  | setOption (o : Rs2Option) (value : ℚ)
deriving DecidableEq, Repr

/-- The hdr_config state open consults: its is_enabled flag. -/
structure HdrConfigState where
  is_enabled : Bool
deriving DecidableEq, Repr

/-- Result of ds6_depth_sensor::open: the action sequence it performs and
whether those actions ran inside one group_multiple_fw_calls session. -/
structure OpenResult where
  actions : List SensorAction
  grouped : Bool
deriving DecidableEq, Repr

/-- ds6_depth_sensor::open: query depth units, install the metadata
modifier, open the underlying streams, and re-assert the hdr sub-preset
(set RS2_OPTION_HDR_ENABLED to 1) when the hdr config exists and is
enabled; the whole body runs under group_multiple_fw_calls. -/
def ds6_depth_sensor_open (hdr_cfg : Option HdrConfigState) : OpenResult :=
  { actions :=
      [ .queryDepthUnits, .setMetadataModifier, .syntheticOpen ] ++
        (match hdr_cfg with
         | some cfg => if cfg.is_enabled = true then [.setOption .hdrEnabled 1] else []
         | none => []),
    grouped := true }

/-- Right-biased-first combination used to describe lookup over appended
registries: the second (later-registered) part wins. -/
def orO (x y : Option OptDesc) : Option OptDesc :=
  match x with
  | some d => some d
  | none => y

/-- The emitter on/off composition each tier of the alternating-emitter
block registers (first matching tier top-down). -/
def emitterOnOffTier (fw : FirmwareVersion) (caps : D400Caps) : OptDesc :=
  if fwGe fw hdr_firmware_version = true then
    .gated (.alternatingEmitter true)
      [(.hdrEnabledOpt, "Emitter ON/OFF cannot be set while HDR is enabled"),
       (.emitterAlwaysOnOpt, "Emitter ON/OFF cannot be set while Emitter always ON is enabled")]
  else if fwGe fw (v 5 12 1 0) = true ∧ caps.globalShutter = true then
    .gated (.alternatingEmitter false)
      [(.emitterAlwaysOnOpt, "Emitter ON/OFF cannot be set while Emitter always ON is enabled")]
  else
    .alternatingEmitter false

/-- Example configuration constants used for concrete evaluations. -/
def cfg0 : DsConfig := ⟨0xFA, 0x1F, [], [], 0x0B5B, 0x0B49, 0x0B52⟩

/-- A GVD blob advertising an active projector and a rolling (value 1,
hence non-global) shutter. -/
def gvdRolling : GvdBytes := ⟨1, 1, 0, 0, 0xFF, 0xFF, 1⟩

/-- A GVD blob whose IMU-present byte is nonzero but whose accelerometer
chip id (0x33) matches no known signature. -/
def gvdUnknownImu : GvdBytes := ⟨0, 0, 1, 0x33, 0xFF, 0xFF, 2⟩

/-- A capability mask with global shutter, active projector and intercam
hw sync present. -/
def capsGsAp : D400Caps :=
  ⟨true, false, false, false, false, false, false, true, true⟩

theorem orO_none (y : Option OptDesc) : orO none y = y := rfl

theorem orO_some (d : OptDesc) (y : Option OptDesc) : orO (some d) y = some d := rfl

theorem lookupOpt_append (l1 l2 : Registry) (i : Rs2Option) :
    lookupOpt (l1 ++ l2) i = orO (lookupOpt l2 i) (lookupOpt l1 i) := by
  induction l1 with
  | nil =>
    cases h : lookupOpt l2 i <;> simp [lookupOpt, orO, h]
  | cons p rest ih =>
    show (match lookupOpt (rest ++ l2) i with
          | some d => some d
          | none => if p.1 = i then some p.2 else none) = _
    rw [ih]
    cases h : lookupOpt l2 i <;> cases h2 : lookupOpt rest i <;>
      simp [lookupOpt, orO, h, h2]

theorem lookupOpt_rs416Options_other (cfg : DsConfig) (pid : Nat)
    (fw : FirmwareVersion) (i : Rs2Option)
    (h1 : i ≠ .hardwarePreset) (h2 : i ≠ .ledPower) :
    lookupOpt (rs416Options cfg pid fw) i = none := by
  unfold rs416Options
  split <;> simp [lookupOpt, Ne.symm h1, Ne.symm h2]

theorem lookupOpt_fw558Options_other (fw : FirmwareVersion) (i : Rs2Option)
    (h1 : i ≠ .outputTriggerEnabled) (h2 : i ≠ .errorPollingEnabled)
    (h3 : i ≠ .asicTemperature) :
    lookupOpt (fw558Options fw) i = none := by
  unfold fw558Options
  split <;> simp [lookupOpt, Ne.symm h1, Ne.symm h2, Ne.symm h3]

theorem lookupOpt_hdrOptions_other (fw : FirmwareVersion) (i : Rs2Option)
    (h1 : i ≠ .sequenceName) (h2 : i ≠ .sequenceSize) (h3 : i ≠ .sequenceId)
    (h4 : i ≠ .hdrEnabled) (h5 : i ≠ .enableAutoExposure) :
    lookupOpt (hdrOptions fw) i = none := by
  unfold hdrOptions
  split <;> simp [lookupOpt, Ne.symm h1, Ne.symm h2, Ne.symm h3, Ne.symm h4, Ne.symm h5]

theorem lookupOpt_exposureGainOptions_other (fw : FirmwareVersion) (i : Rs2Option)
    (h1 : i ≠ .exposure) (h2 : i ≠ .gain) :
    lookupOpt (exposureGainOptions fw) i = none := by
  unfold exposureGainOptions
  simp [lookupOpt, Ne.symm h1, Ne.symm h2]

theorem lookupOpt_emitterOptions_other (fw : FirmwareVersion) (e : Bool)
    (caps : D400Caps) (i : Rs2Option)
    (h1 : i ≠ .emitterOnOff) (h2 : i ≠ .emitterAlwaysOn) :
    lookupOpt (emitterOptions fw e caps) i = none := by
  unfold emitterOptions
  split_ifs <;>
    simp [lookupOpt, lookupOpt_append, orO, Ne.symm h1, Ne.symm h2]

theorem lookupOpt_syncOptions_other (fw : FirmwareVersion) (caps : D400Caps)
    (i : Rs2Option) (h1 : i ≠ .interCamSyncMode) :
    lookupOpt (syncOptions fw caps) i = none := by
  unfold syncOptions
  split_ifs <;> simp [lookupOpt, Ne.symm h1]

theorem lookupOpt_depthUnitsOptions_other (fw : FirmwareVersion) (a : Bool)
    (i : Rs2Option) (h1 : i ≠ .depthUnits) :
    lookupOpt (depthUnitsOptions fw a) i = none := by
  unfold depthUnitsOptions
  split <;> simp [lookupOpt, Ne.symm h1]

theorem lookupOpt_hdrOptions_hdrEnabled (fw : FirmwareVersion) :
    lookupOpt (hdrOptions fw) .hdrEnabled =
      if fwGe fw hdr_firmware_version = true then
        some (.hdrOpt "RS2_OPTION_HDR_ENABLED")
      else none := by
  unfold hdrOptions
  split <;> rfl

theorem lookupOpt_hdrOptions_sequenceName (fw : FirmwareVersion) :
    lookupOpt (hdrOptions fw) .sequenceName =
      if fwGe fw hdr_firmware_version = true then
        some (.hdrOpt "RS2_OPTION_SEQUENCE_NAME")
      else none := by
  unfold hdrOptions
  split <;> rfl

theorem lookupOpt_hdrOptions_sequenceSize (fw : FirmwareVersion) :
    lookupOpt (hdrOptions fw) .sequenceSize =
      if fwGe fw hdr_firmware_version = true then
        some (.hdrOpt "RS2_OPTION_SEQUENCE_SIZE")
      else none := by
  unfold hdrOptions
  split <;> rfl

theorem lookupOpt_hdrOptions_sequenceId (fw : FirmwareVersion) :
    lookupOpt (hdrOptions fw) .sequenceId =
      if fwGe fw hdr_firmware_version = true then
        some (.hdrOpt "RS2_OPTION_SEQUENCE_ID")
      else none := by
  unfold hdrOptions
  split <;> rfl

theorem lookupOpt_exposureGainOptions_exposure (fw : FirmwareVersion) :
    lookupOpt (exposureGainOptions fw) .exposure =
      some (.autoDisabling (exposure_option fw) enable_auto_exposure) := rfl

theorem lookupOpt_exposureGainOptions_gain (fw : FirmwareVersion) :
    lookupOpt (exposureGainOptions fw) .gain =
      some (.autoDisabling (gain_option fw) enable_auto_exposure) := rfl

theorem lookupOpt_emitterOptions_emitterOnOff (fw : FirmwareVersion) (e : Bool)
    (caps : D400Caps)
    (h1 : fwGe fw (v 5 11 3 0) = true) (h2 : caps.globalShutter = true)
    (h3 : caps.activeProjector = true) :
    lookupOpt (emitterOptions fw e caps) .emitterOnOff =
      some (emitterOnOffTier fw caps) := by
  unfold emitterOptions emitterOnOffTier
  rw [if_pos ⟨h1, h2, h3⟩]
  split_ifs <;> simp_all [lookupOpt, lookupOpt_append, orO]

theorem countOpt_append (l1 l2 : Registry) (i : Rs2Option) :
    countOpt (l1 ++ l2) i = countOpt l1 i + countOpt l2 i := by
  unfold countOpt
  rw [List.filter_append, List.length_append]

theorem countOpt_emitterOptions_emitterOnOff (fw : FirmwareVersion) (e : Bool)
    (caps : D400Caps)
    (h1 : fwGe fw (v 5 11 3 0) = true) (h2 : caps.globalShutter = true)
    (h3 : caps.activeProjector = true) :
    countOpt (emitterOptions fw e caps) .emitterOnOff = 1 := by
  unfold emitterOptions
  rw [if_pos ⟨h1, h2, h3⟩]
  split_ifs <;> simp_all [countOpt, List.filter]

theorem countOpt_other_emitterOnOff (cfg : DsConfig) (fw : FirmwareVersion)
    (pid : Nat) (a : Bool) (caps : D400Caps) :
    countOpt baseOptions .emitterOnOff = 0 ∧
    countOpt (rs416Options cfg pid fw) .emitterOnOff = 0 ∧
    countOpt (fw558Options fw) .emitterOnOff = 0 ∧
    countOpt [(Rs2Option.enableAutoExposure, enable_auto_exposure)] .emitterOnOff = 0 ∧
    countOpt (hdrOptions fw) .emitterOnOff = 0 ∧
    countOpt (exposureGainOptions fw) .emitterOnOff = 0 ∧
    countOpt (syncOptions fw caps) .emitterOnOff = 0 ∧
    countOpt baselineOptions .emitterOnOff = 0 ∧
    countOpt (depthUnitsOptions fw a) .emitterOnOff = 0 := by
  unfold baseOptions rs416Options fw558Options hdrOptions exposureGainOptions
    syncOptions baselineOptions depthUnitsOptions
  refine ⟨rfl, ?_, ?_, rfl, ?_, rfl, ?_, rfl, ?_⟩ <;>
    split_ifs <;> rfl

theorem lookupOpt_emitterOptions_emitterAlwaysOn (fw : FirmwareVersion)
    (e : Bool) (caps : D400Caps) :
    lookupOpt (emitterOptions fw e caps) .emitterAlwaysOn =
      if fwGe fw (v 5 11 3 0) = true ∧ caps.globalShutter = true ∧ caps.activeProjector = true then
        if fwGe fw (v 5 12 1 0) = true ∧ caps.globalShutter = true then
          some (.gated .emitterAlwaysOnCtl
            [(.alternatingEmitterOpt, "Emitter always ON cannot be set while Emitter ON/OFF is enabled")])
        else none
      else none := by
  unfold emitterOptions
  split_ifs <;> simp_all [lookupOpt, lookupOpt_append, orO]

theorem lookupOpt_syncOptions_interCamSyncMode (fw : FirmwareVersion)
    (caps : D400Caps) :
    lookupOpt (syncOptions fw caps) .interCamSyncMode =
      if caps.intercamHwSync = true then
        if fwGe fw (v 5 12 12 100) = true ∧ caps.globalShutter = true then
          some (.externalSyncMode 3)
        else if fwGe fw (v 5 12 4 0) = true ∧ caps.globalShutter = true then
          some (.externalSyncMode 2)
        else if fwGe fw (v 5 9 15 1) = true then
          some (.externalSyncMode 1)
        else none
      else none := by
  unfold syncOptions
  split_ifs <;> rfl

theorem lookup_register_hdrEnabled (cfg : DsConfig) (fw : FirmwareVersion)
    (e a : Bool) (pid : Nat) (caps : D400Caps) :
    lookupOpt (register_options cfg fw e a pid caps) .hdrEnabled =
      if fwGe fw hdr_firmware_version = true then
        some (.hdrOpt "RS2_OPTION_HDR_ENABLED")
      else none := by
  unfold register_options
  simp only [lookupOpt_append]
  rw [lookupOpt_rs416Options_other cfg pid fw _ (by decide) (by decide),
      lookupOpt_fw558Options_other fw _ (by decide) (by decide) (by decide),
      lookupOpt_hdrOptions_hdrEnabled fw,
      lookupOpt_exposureGainOptions_other fw _ (by decide) (by decide),
      lookupOpt_emitterOptions_other fw e caps _ (by decide) (by decide),
      lookupOpt_syncOptions_other fw caps _ (by decide),
      lookupOpt_depthUnitsOptions_other fw a _ (by decide)]
  cases h : fwGe fw hdr_firmware_version <;> simp [h, orO, lookupOpt]

theorem lookup_register_sequenceName (cfg : DsConfig) (fw : FirmwareVersion)
    (e a : Bool) (pid : Nat) (caps : D400Caps) :
    lookupOpt (register_options cfg fw e a pid caps) .sequenceName =
      if fwGe fw hdr_firmware_version = true then
        some (.hdrOpt "RS2_OPTION_SEQUENCE_NAME")
      else none := by
  unfold register_options
  simp only [lookupOpt_append]
  rw [lookupOpt_rs416Options_other cfg pid fw _ (by decide) (by decide),
      lookupOpt_fw558Options_other fw _ (by decide) (by decide) (by decide),
      lookupOpt_hdrOptions_sequenceName fw,
      lookupOpt_exposureGainOptions_other fw _ (by decide) (by decide),
      lookupOpt_emitterOptions_other fw e caps _ (by decide) (by decide),
      lookupOpt_syncOptions_other fw caps _ (by decide),
      lookupOpt_depthUnitsOptions_other fw a _ (by decide)]
  cases h : fwGe fw hdr_firmware_version <;> simp [h, orO, lookupOpt]

theorem lookup_register_sequenceSize (cfg : DsConfig) (fw : FirmwareVersion)
    (e a : Bool) (pid : Nat) (caps : D400Caps) :
    lookupOpt (register_options cfg fw e a pid caps) .sequenceSize =
      if fwGe fw hdr_firmware_version = true then
        some (.hdrOpt "RS2_OPTION_SEQUENCE_SIZE")
      else none := by
  unfold register_options
  simp only [lookupOpt_append]
  rw [lookupOpt_rs416Options_other cfg pid fw _ (by decide) (by decide),
      lookupOpt_fw558Options_other fw _ (by decide) (by decide) (by decide),
      lookupOpt_hdrOptions_sequenceSize fw,
      lookupOpt_exposureGainOptions_other fw _ (by decide) (by decide),
      lookupOpt_emitterOptions_other fw e caps _ (by decide) (by decide),
      lookupOpt_syncOptions_other fw caps _ (by decide),
      lookupOpt_depthUnitsOptions_other fw a _ (by decide)]
  cases h : fwGe fw hdr_firmware_version <;> simp [h, orO, lookupOpt]

theorem lookup_register_sequenceId (cfg : DsConfig) (fw : FirmwareVersion)
    (e a : Bool) (pid : Nat) (caps : D400Caps) :
    lookupOpt (register_options cfg fw e a pid caps) .sequenceId =
      if fwGe fw hdr_firmware_version = true then
        some (.hdrOpt "RS2_OPTION_SEQUENCE_ID")
      else none := by
  unfold register_options
  simp only [lookupOpt_append]
  rw [lookupOpt_rs416Options_other cfg pid fw _ (by decide) (by decide),
      lookupOpt_fw558Options_other fw _ (by decide) (by decide) (by decide),
      lookupOpt_hdrOptions_sequenceId fw,
      lookupOpt_exposureGainOptions_other fw _ (by decide) (by decide),
      lookupOpt_emitterOptions_other fw e caps _ (by decide) (by decide),
      lookupOpt_syncOptions_other fw caps _ (by decide),
      lookupOpt_depthUnitsOptions_other fw a _ (by decide)]
  cases h : fwGe fw hdr_firmware_version <;> simp [h, orO, lookupOpt]

theorem lookup_register_exposure (cfg : DsConfig) (fw : FirmwareVersion)
    (e a : Bool) (pid : Nat) (caps : D400Caps) :
    lookupOpt (register_options cfg fw e a pid caps) .exposure =
      some (.autoDisabling (exposure_option fw) enable_auto_exposure) := by
  unfold register_options
  simp only [lookupOpt_append]
  rw [lookupOpt_exposureGainOptions_exposure fw,
      lookupOpt_emitterOptions_other fw e caps _ (by decide) (by decide),
      lookupOpt_syncOptions_other fw caps _ (by decide),
      lookupOpt_depthUnitsOptions_other fw a _ (by decide)]
  simp [orO, lookupOpt]

theorem lookup_register_gain (cfg : DsConfig) (fw : FirmwareVersion)
    (e a : Bool) (pid : Nat) (caps : D400Caps) :
    lookupOpt (register_options cfg fw e a pid caps) .gain =
      some (.autoDisabling (gain_option fw) enable_auto_exposure) := by
  unfold register_options
  simp only [lookupOpt_append]
  rw [lookupOpt_exposureGainOptions_gain fw,
      lookupOpt_emitterOptions_other fw e caps _ (by decide) (by decide),
      lookupOpt_syncOptions_other fw caps _ (by decide),
      lookupOpt_depthUnitsOptions_other fw a _ (by decide)]
  simp [orO, lookupOpt]

theorem lookup_register_emitterOnOff (cfg : DsConfig) (fw : FirmwareVersion)
    (e a : Bool) (pid : Nat) (caps : D400Caps) :
    lookupOpt (register_options cfg fw e a pid caps) .emitterOnOff =
      lookupOpt (emitterOptions fw e caps) .emitterOnOff := by
  unfold register_options
  simp only [lookupOpt_append]
  rw [lookupOpt_rs416Options_other cfg pid fw _ (by decide) (by decide),
      lookupOpt_fw558Options_other fw _ (by decide) (by decide) (by decide),
      lookupOpt_hdrOptions_other fw _ (by decide) (by decide) (by decide) (by decide) (by decide),
      lookupOpt_exposureGainOptions_other fw _ (by decide) (by decide),
      lookupOpt_syncOptions_other fw caps _ (by decide),
      lookupOpt_depthUnitsOptions_other fw a _ (by decide)]
  cases h : lookupOpt (emitterOptions fw e caps) .emitterOnOff <;>
    simp [h, orO, lookupOpt]

theorem lookup_register_emitterAlwaysOn (cfg : DsConfig) (fw : FirmwareVersion)
    (e a : Bool) (pid : Nat) (caps : D400Caps) :
    lookupOpt (register_options cfg fw e a pid caps) .emitterAlwaysOn =
      lookupOpt (emitterOptions fw e caps) .emitterAlwaysOn := by
  unfold register_options
  simp only [lookupOpt_append]
  rw [lookupOpt_rs416Options_other cfg pid fw _ (by decide) (by decide),
      lookupOpt_fw558Options_other fw _ (by decide) (by decide) (by decide),
      lookupOpt_hdrOptions_other fw _ (by decide) (by decide) (by decide) (by decide) (by decide),
      lookupOpt_exposureGainOptions_other fw _ (by decide) (by decide),
      lookupOpt_syncOptions_other fw caps _ (by decide),
      lookupOpt_depthUnitsOptions_other fw a _ (by decide)]
  cases h : lookupOpt (emitterOptions fw e caps) .emitterAlwaysOn <;>
    simp [h, orO, lookupOpt]

theorem lookup_register_interCamSyncMode (cfg : DsConfig) (fw : FirmwareVersion)
    (e a : Bool) (pid : Nat) (caps : D400Caps) :
    lookupOpt (register_options cfg fw e a pid caps) .interCamSyncMode =
      lookupOpt (syncOptions fw caps) .interCamSyncMode := by
  unfold register_options
  simp only [lookupOpt_append]
  rw [lookupOpt_rs416Options_other cfg pid fw _ (by decide) (by decide),
      lookupOpt_fw558Options_other fw _ (by decide) (by decide) (by decide),
      lookupOpt_hdrOptions_other fw _ (by decide) (by decide) (by decide) (by decide) (by decide),
      lookupOpt_exposureGainOptions_other fw _ (by decide) (by decide),
      lookupOpt_emitterOptions_other fw e caps _ (by decide) (by decide),
      lookupOpt_depthUnitsOptions_other fw a _ (by decide)]
  cases h : lookupOpt (syncOptions fw caps) .interCamSyncMode <;>
    simp [h, orO, lookupOpt]

theorem countOpt_register_emitterOnOff (cfg : DsConfig) (fw : FirmwareVersion)
    (e a : Bool) (pid : Nat) (caps : D400Caps) :
    countOpt (register_options cfg fw e a pid caps) .emitterOnOff =
      countOpt (emitterOptions fw e caps) .emitterOnOff := by
  obtain ⟨c1, c2, c3, c4, c5, c6, c7, c8, c9⟩ :=
    countOpt_other_emitterOnOff cfg fw pid a caps
  unfold register_options
  simp only [countOpt_append, c1, c2, c3, c4, c5, c6, c7, c8, c9]
  omega

/-- Claim C1, counterexample: a device whose firmware equals the HDR
threshold but whose GVD advertises a rolling (non-global) shutter still
gets the HDR options and the Conditional exposure composition registered,
because the global-shutter conjunct of the gate is commented out in
ds6_device::init. -/
theorem c1_hdr_gate_counterexample :
    fwGe (v 5 12 8 100) hdr_firmware_version = true ∧
    (ds6_device_capabilities cfg0 (v 5 12 8 100) 0x0B5A gvdRolling).1.globalShutter = false ∧
    lookupOpt (ds6_init cfg0 (v 5 12 8 100) false false 0x0B5A gvdRolling) .hdrEnabled =
      some (.hdrOpt "RS2_OPTION_HDR_ENABLED") ∧
    lookupOpt (ds6_init cfg0 (v 5 12 8 100) false false 0x0B5A gvdRolling) .exposure =
      some (.autoDisabling
        (.hdrConditional uvc_xu_exposure_option (.hdrOpt "RS2_OPTION_EXPOSURE"))
        enable_auto_exposure) := by
  refine ⟨rfl, rfl, rfl, rfl⟩

/-- Claim C1 (amended): at device-open time the Exposure and Gain options
are registered as Conditional (HDR-routing) compositions and the HDR
options (sequence name, sequence size, sequence id, hdr-enabled) are
registered, if and only if the firmware version is at or above the HDR
threshold 5.12.8.100; the device capability mask is not consulted (the
global-shutter conjunct is commented out in the source). -/
theorem c1_hdr_gate_amended (cfg : DsConfig) (fw : FirmwareVersion)
    (e a : Bool) (pid : Nat) (gvd : GvdBytes) :
    (fwGe fw hdr_firmware_version = true) ↔
      (lookupOpt (ds6_init cfg fw e a pid gvd) .sequenceName =
         some (.hdrOpt "RS2_OPTION_SEQUENCE_NAME") ∧
       lookupOpt (ds6_init cfg fw e a pid gvd) .sequenceSize =
         some (.hdrOpt "RS2_OPTION_SEQUENCE_SIZE") ∧
       lookupOpt (ds6_init cfg fw e a pid gvd) .sequenceId =
         some (.hdrOpt "RS2_OPTION_SEQUENCE_ID") ∧
       lookupOpt (ds6_init cfg fw e a pid gvd) .hdrEnabled =
         some (.hdrOpt "RS2_OPTION_HDR_ENABLED") ∧
       lookupOpt (ds6_init cfg fw e a pid gvd) .exposure =
         some (.autoDisabling
           (.hdrConditional uvc_xu_exposure_option (.hdrOpt "RS2_OPTION_EXPOSURE"))
           enable_auto_exposure) ∧
       lookupOpt (ds6_init cfg fw e a pid gvd) .gain =
         some (.autoDisabling
           (.hdrConditional uvc_pu_gain_option (.hdrOpt "RS2_OPTION_GAIN"))
           enable_auto_exposure)) := by
  unfold ds6_init
  rw [lookup_register_hdrEnabled, lookup_register_sequenceName,
      lookup_register_sequenceSize, lookup_register_sequenceId,
      lookup_register_exposure, lookup_register_gain]
  cases h : fwGe fw hdr_firmware_version <;>
    simp [h, exposure_option, gain_option]

/-- Claim C2: for a device with firmware at least 5.11.3.0 and both
global-shutter and active-projector capabilities, exactly one emitter
on/off option is registered, and its blocker set is the first matching
tier top-down: hdr-enabled plus emitter-always-on at or above the HDR
threshold, emitter-always-on alone at or above 5.12.1.0, ungated below. -/
theorem c2_emitter_tiers (cfg : DsConfig) (fw : FirmwareVersion)
    (e a : Bool) (pid : Nat) (caps : D400Caps)
    (h1 : fwGe fw (v 5 11 3 0) = true)
    (h2 : caps.globalShutter = true)
    (h3 : caps.activeProjector = true) :
    countOpt (register_options cfg fw e a pid caps) .emitterOnOff = 1 ∧
    lookupOpt (register_options cfg fw e a pid caps) .emitterOnOff =
      some (if fwGe fw hdr_firmware_version = true then
              .gated (.alternatingEmitter true)
                [(.hdrEnabledOpt, "Emitter ON/OFF cannot be set while HDR is enabled"),
                 (.emitterAlwaysOnOpt, "Emitter ON/OFF cannot be set while Emitter always ON is enabled")]
            else if fwGe fw (v 5 12 1 0) = true then
              .gated (.alternatingEmitter false)
                [(.emitterAlwaysOnOpt, "Emitter ON/OFF cannot be set while Emitter always ON is enabled")]
            else .alternatingEmitter false) := by
  constructor
  · rw [countOpt_register_emitterOnOff,
        countOpt_emitterOptions_emitterOnOff fw e caps h1 h2 h3]
  · rw [lookup_register_emitterOnOff,
        lookupOpt_emitterOptions_emitterOnOff fw e caps h1 h2 h3]
    simp [emitterOnOffTier, h2]

/-- Claim C2, witness: a concrete device above the HDR threshold with
both capabilities registers the fully gated emitter on/off option once. -/
theorem c2_emitter_tiers_witness :
    countOpt (register_options cfg0 (v 5 13 0 0) false false 11 capsGsAp) .emitterOnOff = 1 ∧
    lookupOpt (register_options cfg0 (v 5 13 0 0) false false 11 capsGsAp) .emitterOnOff =
      some (if fwGe (v 5 13 0 0) hdr_firmware_version = true then
              .gated (.alternatingEmitter true)
                [(.hdrEnabledOpt, "Emitter ON/OFF cannot be set while HDR is enabled"),
                 (.emitterAlwaysOnOpt, "Emitter ON/OFF cannot be set while Emitter always ON is enabled")]
            else if fwGe (v 5 13 0 0) (v 5 12 1 0) = true then
              .gated (.alternatingEmitter false)
                [(.emitterAlwaysOnOpt, "Emitter ON/OFF cannot be set while Emitter always ON is enabled")]
            else .alternatingEmitter false) :=
  c2_emitter_tiers cfg0 (v 5 13 0 0) false false 11 capsGsAp
    (by decide) (by decide) (by decide)

theorem sensor_capability_step_imuSensor (cfg : DsConfig) (pid : Nat)
    (gvd : GvdBytes) (val : D400Caps) :
    (sensor_capability_step cfg pid gvd val).imuSensor = val.imuSensor := by
  unfold sensor_capability_step
  split_ifs <;> rfl

theorem sensor_capability_step_bmi055 (cfg : DsConfig) (pid : Nat)
    (gvd : GvdBytes) (val : D400Caps) :
    (sensor_capability_step cfg pid gvd val).bmi055 = val.bmi055 := by
  unfold sensor_capability_step
  split_ifs <;> rfl

theorem sensor_capability_step_bmi085 (cfg : DsConfig) (pid : Nat)
    (gvd : GvdBytes) (val : D400Caps) :
    (sensor_capability_step cfg pid gvd val).bmi085 = val.bmi085 := by
  unfold sensor_capability_step
  split_ifs <;> rfl

theorem projector_rgb_step_bmi055 (gvd : GvdBytes) :
    (projector_rgb_step gvd).bmi055 = false := by
  unfold projector_rgb_step capUndefined
  split_ifs <;> rfl

theorem projector_rgb_step_bmi085 (gvd : GvdBytes) :
    (projector_rgb_step gvd).bmi085 = false := by
  unfold projector_rgb_step capUndefined
  split_ifs <;> rfl

/-- Claim C3, counterexample: on a GVD blob with a nonzero IMU-present
byte and an unrecognized accelerometer chip id (product id in neither
fallback table), parsing emits the diagnostic but the returned mask has
the IMU capability SET (CAP_IMU_SENSOR is or-ed in before the chip-id
checks), contradicting the claim that the IMU capability is left unset. -/
theorem c3_unknown_imu_counterexample :
    gvdUnknownImu.imu_sensor ≠ 0 ∧
    gvdUnknownImu.imu_acc_chip_id ≠ cfg0.i2c_imu_bmi055_id_acc ∧
    gvdUnknownImu.imu_acc_chip_id ≠ cfg0.i2c_imu_bmi085_id_acc ∧
    (0x0B5A ∉ cfg0.hid_bmi_055_pid) ∧
    (0x0B5A ∉ cfg0.hid_bmi_085_pid) ∧
    (parse_device_capabilities cfg0 0x0B5A gvdUnknownImu).2 = true ∧
    (parse_device_capabilities cfg0 0x0B5A gvdUnknownImu).1.imuSensor = true := by
  decide

/-- Claim C3 (amended): for every GVD blob whose IMU-present byte is
nonzero but whose accelerometer chip id matches no known signature and
whose product id is in neither fallback table, capability parsing emits a
non-fatal diagnostic only, leaves both IMU chip-identification
capabilities (BMI-055, BMI-085) unset, and leaves the IMU-present
capability set in the returned mask. -/
theorem c3_unknown_imu_amended (cfg : DsConfig) (pid : Nat) (gvd : GvdBytes)
    (h1 : gvd.imu_sensor ≠ 0)
    (h2 : gvd.imu_acc_chip_id ≠ cfg.i2c_imu_bmi055_id_acc)
    (h3 : gvd.imu_acc_chip_id ≠ cfg.i2c_imu_bmi085_id_acc)
    (h4 : pid ∉ cfg.hid_bmi_055_pid)
    (h5 : pid ∉ cfg.hid_bmi_085_pid) :
    (parse_device_capabilities cfg pid gvd).2 = true ∧
    (parse_device_capabilities cfg pid gvd).1.imuSensor = true ∧
    (parse_device_capabilities cfg pid gvd).1.bmi055 = false ∧
    (parse_device_capabilities cfg pid gvd).1.bmi085 = false := by
  have hstep :
      imu_capability_step cfg pid gvd (projector_rgb_step gvd) =
        ({ projector_rgb_step gvd with imuSensor := true }, true) := by
    unfold imu_capability_step
    rw [if_pos h1, if_neg h2, if_neg h3, if_neg h4, if_neg h5]
  unfold parse_device_capabilities
  rw [hstep]
  refine ⟨rfl, ?_, ?_, ?_⟩
  · rw [sensor_capability_step_imuSensor]
  · rw [sensor_capability_step_bmi055]
    exact projector_rgb_step_bmi055 gvd
  · rw [sensor_capability_step_bmi085]
    exact projector_rgb_step_bmi085 gvd

/-- Claim C3 (amended), witness: concrete unknown-chip-id blob. -/
theorem c3_unknown_imu_amended_witness :
    (parse_device_capabilities cfg0 0x0B5A gvdUnknownImu).2 = true ∧
    (parse_device_capabilities cfg0 0x0B5A gvdUnknownImu).1.imuSensor = true ∧
    (parse_device_capabilities cfg0 0x0B5A gvdUnknownImu).1.bmi055 = false ∧
    (parse_device_capabilities cfg0 0x0B5A gvdUnknownImu).1.bmi085 = false :=
  c3_unknown_imu_amended cfg0 0x0B5A gvdUnknownImu
    (by decide) (by decide) (by decide) (by decide) (by decide)

/-- Claim C4: for every device whose firmware version is below the HDR
threshold, the registered Exposure option is exactly an AutoDisabling
wrapper over the raw exposure control with the auto-exposure enable flag,
and none of the HDR options appear in the registry. -/
theorem c4_below_hdr_threshold (cfg : DsConfig) (fw : FirmwareVersion)
    (e a : Bool) (pid : Nat) (gvd : GvdBytes)
    (h : fwGe fw hdr_firmware_version = false) :
    lookupOpt (ds6_init cfg fw e a pid gvd) .exposure =
      some (.autoDisabling uvc_xu_exposure_option enable_auto_exposure) ∧
    lookupOpt (ds6_init cfg fw e a pid gvd) .sequenceId = none ∧
    lookupOpt (ds6_init cfg fw e a pid gvd) .sequenceName = none ∧
    lookupOpt (ds6_init cfg fw e a pid gvd) .sequenceSize = none ∧
    lookupOpt (ds6_init cfg fw e a pid gvd) .hdrEnabled = none := by
  unfold ds6_init
  rw [lookup_register_exposure, lookup_register_sequenceId,
      lookup_register_sequenceName, lookup_register_sequenceSize,
      lookup_register_hdrEnabled]
  simp [h, exposure_option]

/-- Claim C4, witness: a device one build below the threshold. -/
theorem c4_below_hdr_threshold_witness :
    lookupOpt (ds6_init cfg0 (v 5 12 8 99) false false 11 gvdRolling) .exposure =
      some (.autoDisabling uvc_xu_exposure_option enable_auto_exposure) ∧
    lookupOpt (ds6_init cfg0 (v 5 12 8 99) false false 11 gvdRolling) .sequenceId = none ∧
    lookupOpt (ds6_init cfg0 (v 5 12 8 99) false false 11 gvdRolling) .sequenceName = none ∧
    lookupOpt (ds6_init cfg0 (v 5 12 8 99) false false 11 gvdRolling) .sequenceSize = none ∧
    lookupOpt (ds6_init cfg0 (v 5 12 8 99) false false 11 gvdRolling) .hdrEnabled = none :=
  c4_below_hdr_threshold cfg0 (v 5 12 8 99) false false 11 gvdRolling (by decide)

/-- Claim C5: capability parsing is a deterministic function of the GVD
byte blob: two parse runs on the same device (same product id and
configuration) that read the same GVD bytes return identical capability
masks (and identical diagnostics). -/
theorem c5_capability_determinism (cfg : DsConfig) (pid : Nat)
    (g1 g2 : GvdBytes) (h : g1 = g2) :
    parse_device_capabilities cfg pid g1 = parse_device_capabilities cfg pid g2 := by
  rw [h]

/-- Claim C5, witness: determinism at a concrete blob. -/
theorem c5_capability_determinism_witness :
    parse_device_capabilities cfg0 0x0B5A gvdUnknownImu =
      parse_device_capabilities cfg0 0x0B5A gvdUnknownImu :=
  c5_capability_determinism cfg0 0x0B5A gvdUnknownImu gvdUnknownImu rfl

/-- Claim C6: get_device_time_ms throws when the hardware monitor is not
initialized, throws when the firmware response holds fewer than 4 bytes,
and otherwise returns the first 32-bit tick count of the response scaled
by the fixed tick-to-millisecond factor; these three are the only paths. -/
theorem c6_device_time_paths (hw : Option (List Nat)) :
    (hw = none ∧ get_device_time_ms hw =
        .error (.wrongApiCallSequence "_hw_monitor is not initialized yet")) ∨
    (∃ res, hw = some res ∧ res.length < 4 ∧ get_device_time_ms hw =
        .error (.runtimeError "Not enough bytes returned from the firmware!")) ∨
    (∃ res, hw = some res ∧ 4 ≤ res.length ∧ get_device_time_ms hw =
        .ok ((uint32_at_start res : ℚ) * TIMESTAMP_USEC_TO_MSEC)) := by
  cases hw with
  | none => exact Or.inl ⟨rfl, rfl⟩
  | some res =>
    by_cases h : res.length < 4
    · exact Or.inr (Or.inl ⟨res, rfl, h, by simp [get_device_time_ms, h]⟩)
    · exact Or.inr (Or.inr ⟨res, rfl, by omega, by simp [get_device_time_ms, h]⟩)

/-- Claim C7: intrinsics lookup consults the newer unified calibration
table first and returns its result when the resolution is found there;
only when the resolution is absent from the new table does it fall back
to the legacy per-resolution coefficients table. -/
theorem c7_intrinsics_fallback {α : Type}
    (newLookup : Nat → Nat → Option α) (legacyLookup : Nat → Nat → α)
    (p : StreamProfileRec) :
    (∀ r, newLookup p.width p.height = some r →
        get_intrinsics newLookup legacyLookup p = r) ∧
    (newLookup p.width p.height = none →
        get_intrinsics newLookup legacyLookup p = legacyLookup p.width p.height) := by
  constructor
  · intro r h
    simp [get_intrinsics, h]
  · intro h
    simp [get_intrinsics, h]

/-- Claim C7, witness: concrete hit in the new table, and concrete miss
falling back to the legacy table. -/
theorem c7_intrinsics_fallback_witness :
    get_intrinsics (fun _ _ => (some 7 : Option Nat)) (fun _ _ => 9) ⟨640, 480, 0, 1⟩ = 7 ∧
    get_intrinsics (fun _ _ => (none : Option Nat)) (fun _ _ => 9) ⟨640, 480, 0, 1⟩ = 9 :=
  ⟨(c7_intrinsics_fallback (fun _ _ => some 7) (fun _ _ => 9) ⟨640, 480, 0, 1⟩).1 7 rfl,
   (c7_intrinsics_fallback (fun _ _ => none) (fun _ _ => 9) ⟨640, 480, 0, 1⟩).2 rfl⟩

/-- Claim C8: init registers the depth to left-infrared extrinsics as the
identity transform, and the lazily computed depth to right-infrared
extrinsic carries the identity rotation with a pure translation whose
horizontal component is the coefficients-table baseline times 0.001
(millimeters to meters) and whose other components are zero. -/
theorem c8_extrinsics_registration (baseline : ℚ) :
    extrinsics_between (ds6_extrinsics_registrations baseline) .depth .leftIr =
      some identity_matrix ∧
    extrinsics_between (ds6_extrinsics_registrations baseline) .depth .rightIr =
      some ⟨identity_matrix.rotation, [(1 / 1000 : ℚ) * baseline, 0, 0]⟩ := by
  constructor <;> rfl

/-- Claim C9: on every call to the depth sensor's open, when the HDR
config exists and its enabled flag is set, the HDR-enabled option is set
to 1 after the underlying synthetic open, inside the grouped
firmware-call session; when the config is absent or disabled no such
re-assert is issued. -/
theorem c9_open_reassert (hdr_cfg : Option HdrConfigState) :
    ((∃ cfg, hdr_cfg = some cfg ∧ cfg.is_enabled = true) →
       ds6_depth_sensor_open hdr_cfg =
         ⟨[.queryDepthUnits, .setMetadataModifier, .syntheticOpen,
           .setOption .hdrEnabled 1], true⟩) ∧
    ((∀ cfg, hdr_cfg = some cfg → cfg.is_enabled = false) →
       ds6_depth_sensor_open hdr_cfg =
         ⟨[.queryDepthUnits, .setMetadataModifier, .syntheticOpen], true⟩) := by
  constructor
  · rintro ⟨cfg, rfl, hen⟩
    simp [ds6_depth_sensor_open, hen]
  · intro hno
    cases hdr_cfg with
    | none => rfl
    | some cfg => simp [ds6_depth_sensor_open, hno cfg rfl]

/-- Claim C9, witness: enabled config re-asserts, absent config does
not. -/
theorem c9_open_reassert_witness :
    ds6_depth_sensor_open (some ⟨true⟩) =
      ⟨[.queryDepthUnits, .setMetadataModifier, .syntheticOpen,
        .setOption .hdrEnabled 1], true⟩ ∧
    ds6_depth_sensor_open none =
      ⟨[.queryDepthUnits, .setMetadataModifier, .syntheticOpen], true⟩ :=
  ⟨(c9_open_reassert (some ⟨true⟩)).1 ⟨⟨true⟩, rfl, rfl⟩,
   (c9_open_reassert none).2 (fun _ h => nomatch h)⟩

/-- Claim C10: for every device whose firmware version is below 5.10.4.0,
parse_device_capabilities is never invoked, the capability mask stays at
the constructed CAP_UNDEFINED, and every capability-gated registration
(emitter on/off in both its tiers, emitter always-on, inter-camera sync
mode) is skipped regardless of the GVD contents. -/
theorem c10_low_fw_skips_capability_gates (cfg : DsConfig)
    (fw : FirmwareVersion) (e a : Bool) (pid : Nat) (gvd : GvdBytes)
    (h : fwGe fw (v 5 10 4 0) = false) :
    (ds6_device_capabilities cfg fw pid gvd).2 = false ∧
    (ds6_device_capabilities cfg fw pid gvd).1 = capUndefined ∧
    lookupOpt (ds6_init cfg fw e a pid gvd) .emitterOnOff = none ∧
    lookupOpt (ds6_init cfg fw e a pid gvd) .emitterAlwaysOn = none ∧
    lookupOpt (ds6_init cfg fw e a pid gvd) .interCamSyncMode = none := by
  have hc : ds6_device_capabilities cfg fw pid gvd = (capUndefined, false) := by
    unfold ds6_device_capabilities
    simp [h]
  refine ⟨by rw [hc], by rw [hc], ?_, ?_, ?_⟩
  · unfold ds6_init
    rw [hc, lookup_register_emitterOnOff]
    simp [emitterOptions, capUndefined, lookupOpt]
  · unfold ds6_init
    rw [hc, lookup_register_emitterAlwaysOn]
    simp [emitterOptions, capUndefined, lookupOpt]
  · unfold ds6_init
    rw [hc, lookup_register_interCamSyncMode]
    simp [syncOptions, capUndefined, lookupOpt]

/-- Claim C10, witness: a concrete device on firmware 5.10.3.9 with a GVD
blob advertising every capability still registers none of the gated
options. -/
theorem c10_low_fw_skips_capability_gates_witness :
    (ds6_device_capabilities cfg0 (v 5 10 3 9) 11 gvdUnknownImu).2 = false ∧
    (ds6_device_capabilities cfg0 (v 5 10 3 9) 11 gvdUnknownImu).1 = capUndefined ∧
    lookupOpt (ds6_init cfg0 (v 5 10 3 9) false false 11 gvdUnknownImu) .emitterOnOff = none ∧
    lookupOpt (ds6_init cfg0 (v 5 10 3 9) false false 11 gvdUnknownImu) .emitterAlwaysOn = none ∧
    lookupOpt (ds6_init cfg0 (v 5 10 3 9) false false 11 gvdUnknownImu) .interCamSyncMode = none :=
  c10_low_fw_skips_capability_gates cfg0 (v 5 10 3 9) false false 11 gvdUnknownImu (by decide)

end Ds6
